import Mathlib

/-! wch2pc_app: the state register, the connection state machine, the task pool and
the main loop.

A shallow embedding of `src/wch2pcapp.c` / `src/wch2pcapp.h`.

* The FreeRTOS event group `app.client_state` is a 32-bit word held as a `Nat`.
* Calls into collaborators that are not part of the sources (protocol client,
  SNTP, wifi driver, timer service) and the user callbacks are recorded, in call
  order, in `App.trace`; values those collaborators return are arguments of the
  embedded function that reads them. A user callback is an outgoing call like the
  others: it is taken not to call the register routes itself. A store to the period
  of a task descriptor is recorded in the trace too, at its place among the calls:
  the timer service holds the descriptor as the argument of its callback.
* Task descriptors live in a heap; a pointer to a descriptor is its index there.
* `strcpy` into `app.device_name` has no bound in the source; a copy that does not
  fit is recorded in `App.device_name_overrun`, and from then on the fields of the
  model no longer say what the program does.
* `ESP_ERROR_CHECK (x)` with `x != ESP_OK` aborts: it is `Except.error`, carrying
  the code `x` and the state at the abort.
-/

namespace Wch2pcApp

/-! ## Bit names (wch2pcapp.h, lines 32-43) -/

def WIFI_CONNECTED_BIT : Nat := 0x01
def HOST_CONNECTED_BIT : Nat := 0x02
def AUTHORIZED_BIT : Nat := 0x04
def MODE_SETIME : Nat := 0x08
def MODE_AUTH : Nat := 0x10
def MODE_RECIEVE_MSG : Nat := 0x20
def MODE_SEND_MSG : Nat := 0x40
def MODE_ALL : Nat := 0xfffffe

/-! ## FreeRTOS event-group primitives (`EventBits_t` is a 32-bit word) -/

/-- The FreeRTOS primitive `xEventGroupSetBits`: `uxEventBits |= uxBitsToSet`. -/
def xEventGroupSetBits (bits uxBitsToSet : Nat) : Nat :=
  bits ||| uxBitsToSet

/-- The FreeRTOS primitive `xEventGroupClearBits`: `uxEventBits &= ~uxBitsToClear`,
the complement taken on a 32-bit word. -/
def xEventGroupClearBits (bits uxBitsToClear : Nat) : Nat :=
  bits &&& (0xFFFFFFFF ^^^ uxBitsToClear)

/-! ## Calls that leave the embedded code -/

/-- The `esp_timer` handles the application owns: `app.sys_handles[i]` and
`app.user_handles[i]`. -/
inductive TimerHandle where
  | sys (i : Nat)
  | user (i : Nat)
  deriving DecidableEq, Repr

/-- Calls to collaborators and to user callbacks, as they are issued. -/
inductive Ev where
  | h2pc_disconnect_http2
  | h2pc_reset_buffers
  | h2pc_connect_to_http2
  | h2pc_req_authorize_sync
  | h2pc_req_get_msgs_sync
  | h2pc_req_send_msgs_sync
  | sntp_stop
  | esp_wifi_connect
  | cb_on_error (err : Int)
  | cb_on_disconnect
  | cb_on_wifi_init
  | cb_on_wifi_con
  | cb_on_wifi_dis
  | cb_on_begin_step
  | cb_on_before_inmsgs
  | cb_on_after_inmsgs
  | cb_on_finish_step
  | cb_on_time (id user_data : Nat)
  | cb_on_sync (id cur_state user_data restart_period : Nat)
  | esp_timer_stop (h : TimerHandle)
  | esp_timer_start_periodic (h : TimerHandle) (period : Nat)
  | store_task_period (tsk : Nat) (period : Nat)
  | set_time
  | h2pc_im_proceed (user_handler : Bool) (chunk : Int)
  | vTaskDelay (ticks : Nat)
  deriving DecidableEq, Repr

/-- Which callbacks of `h2pca_config` are non-NULL (only those `EXEC_CB` calls), and the
periods and chunk size of `h2pca_config` the main loop reads. -/
structure Cfg where
  on_error : Bool := false
  on_disconnect : Bool := false
  on_wifi_init : Bool := false
  on_wifi_con : Bool := false
  on_wifi_dis : Bool := false
  on_begin_step : Bool := false
  on_before_inmsgs : Bool := false
  on_after_inmsgs : Bool := false
  on_finish_step : Bool := false
  on_next_inmsg : Bool := false
  main_loop_period : Nat := 200
  send_msgs_period : Nat := 1000000
  recv_msgs_period : Nat := 4000000
  inmsgs_proceed_chunk : Int := 16
  deriving DecidableEq, Repr

/-- The singleton `app` (`h2pca_status`), with the trace of outgoing calls.
`device_name` is the `char device_name[32]`, which is followed in the structure by
`device_char[9]` and the event-group handle `client_state`; `device_name_overrun` says
that a `strcpy` has written past its end. -/
structure App where
  cfg : Cfg := {}
  client_state : Nat := 0
  wifi_connect_errors : Int := 0
  connect_errors : Int := 0
  device_name : String := ""
  device_name_overrun : Bool := false
  trace : List Ev := []
  deriving DecidableEq, Repr

/-- Record one outgoing call. -/
def App.emit (a : App) (e : Ev) : App :=
  { a with trace := a.trace ++ [e] }

/-- The `EXEC_CB (cb, ...)` of line 230: call `cb` when it is not NULL. -/
def EXEC_CB (present : Bool) (e : Ev) (a : App) : App :=
  if present then a.emit e else a

/-! ## State register (wch2pcapp.c, lines 777-796) -/

def h2pca_locked_GET_STATES (a : App) : Nat :=
  a.client_state

def h2pca_locked_CHK_STATE (astate : Nat) (a : App) : Bool :=
  (h2pca_locked_GET_STATES a &&& astate) == astate

def h2pca_locked_SET_STATE (astate : Nat) (a : App) : App :=
  { a with client_state := xEventGroupClearBits a.client_state astate }

def h2pca_locked_CLR_STATE (astate : Nat) (a : App) : App :=
  { a with client_state := xEventGroupSetBits a.client_state astate }

def h2pca_locked_CLR_ALL_STATES (a : App) : App :=
  { a with client_state := xEventGroupClearBits a.client_state MODE_ALL }

/-! ## Constants of headers that are not part of the sources -/

/-- Values of `esp_err.h`. -/
def ESP_OK : Int := 0
def ESP_ERR_INVALID_STATE : Int := 0x103

/-- Constants declared in `wcprotocol.h`, `http2_protoclient.h` and
`FreeRTOSConfig.h`; the embedded code only compares with them or multiplies by them. -/
structure Consts where
  REST_RESULT_OK : Int
  REST_ERR_NO_SUCH_SESSION : Int
  H2PC_ERR_PROTOCOL : Int
  configTICK_RATE_HZ : Int
  deriving DecidableEq, Repr

/-- Sample values for the constants of `Consts` (pairwise distinct error codes, a tick
rate of 100 Hz), used where a concrete instance is evaluated. -/
def sampleConsts : Consts :=
  { REST_RESULT_OK := 0, REST_ERR_NO_SUCH_SESSION := 6, H2PC_ERR_PROTOCOL := 1,
    configTICK_RATE_HZ := 100 }

/-- An abort raised by `ESP_ERROR_CHECK`: the error code and the state at that point. -/
structure Abort (σ : Type) where
  code : Int
  state : σ
  deriving DecidableEq, Repr

/-- Conversion of a mathematical integer to the C type `int` (32 bit, two's complement). -/
def wrapInt32 (x : Int) : Int :=
  (x + 2147483648) % 4294967296 - 2147483648

/-! ## Connection state machine (wch2pcapp.c, lines 252-323) -/

/-- Lines 252-262; `err` is what `h2pc_get_last_error ()` returns. -/
def __consume_protocol_error (K : Consts) (err : Int) (a : App) : App :=
  let a := if err != K.REST_RESULT_OK then EXEC_CB a.cfg.on_error (Ev.cb_on_error err) a else a
  if err == K.REST_ERR_NO_SUCH_SESSION then
    h2pca_locked_SET_STATE MODE_AUTH (h2pca_locked_CLR_ALL_STATES a)
  else a

/-- Lines 265-273: disconnect from host, reset all states. -/
def __disconnect_host (a : App) : App :=
  let a :=
    if h2pca_locked_CHK_STATE HOST_CONNECTED_BIT a then a.emit Ev.h2pc_disconnect_http2
    else a.emit Ev.h2pc_reset_buffers
  let a := h2pca_locked_CLR_ALL_STATES a
  EXEC_CB a.cfg.on_disconnect Ev.cb_on_disconnect a

/-- Lines 276-290; `connected` is what `h2pc_connect_to_http2 (addr)` returns (the
address comes from the configuration store and is not inspected here). -/
def __connect_to_http2 (connected : Bool) (a : App) : App :=
  let a := __disconnect_host a
  let a := a.emit Ev.h2pc_connect_to_http2
  if connected then
    h2pca_locked_SET_STATE (HOST_CONNECTED_BIT ||| MODE_AUTH) { a with connect_errors := 0 }
  else
    { a with connect_errors := wrapInt32 (a.connect_errors + 1) }

/-- The `strcpy (app.device_name, src)` of line 315: the bytes of `src` and a closing
zero byte are written from the start of the 32 bytes of `device_name`, with no bound. -/
def strcpy_device_name (src : String) (a : App) : App :=
  { a with
    device_name := src
    device_name_overrun := a.device_name_overrun || decide (32 < src.utf8ByteSize + 1) }

/-- Lines 292-323; `res` is what `h2pc_req_authorize_sync` returns, `err` what
`h2pc_get_last_error ()` would return, `_device` the device name handed to the client
(the configured `CFG_DEVICE_NAME`, or `app.mac_str`). -/
def __send_authorize (K : Consts) (res : Int) (err : Int) (_device : String) (a : App) : App :=
  let a := a.emit Ev.h2pc_req_authorize_sync
  if res == ESP_OK then
    let a := h2pca_locked_CLR_STATE MODE_AUTH a
    let a := h2pca_locked_SET_STATE (AUTHORIZED_BIT ||| MODE_RECIEVE_MSG) a
    strcpy_device_name _device a
  else if res == K.H2PC_ERR_PROTOCOL then
    __consume_protocol_error K err a
  else
    __disconnect_host a

/-! ## Link notifications (wch2pcapp.c, lines 326-362) -/

inductive SystemEvent where
  | SYSTEM_EVENT_STA_START
  | SYSTEM_EVENT_STA_GOT_IP
  | SYSTEM_EVENT_STA_DISCONNECTED
  | other
  deriving DecidableEq, Repr

/-- Lines 326-362; `wifiRes` is what `esp_wifi_connect ()` returns when it is called. -/
def event_handler (ev : SystemEvent) (wifiRes : Int) (a : App) : Except (Abort App) App :=
  match ev with
  | .SYSTEM_EVENT_STA_START =>
    let a := a.emit Ev.esp_wifi_connect
    if wifiRes != ESP_OK then .error ⟨wifiRes, a⟩
    else .ok (EXEC_CB a.cfg.on_wifi_init Ev.cb_on_wifi_init a)
  | .SYSTEM_EVENT_STA_GOT_IP =>
    let a := h2pca_locked_SET_STATE WIFI_CONNECTED_BIT a
    let a := h2pca_locked_SET_STATE MODE_SETIME a
    let a := { a with wifi_connect_errors := 0 }
    .ok (EXEC_CB a.cfg.on_wifi_con Ev.cb_on_wifi_con a)
  | .SYSTEM_EVENT_STA_DISCONNECTED =>
    let a := { a with wifi_connect_errors := wrapInt32 (a.wifi_connect_errors + 1) }
    let a := a.emit Ev.sntp_stop
    let a := EXEC_CB a.cfg.on_wifi_dis Ev.cb_on_wifi_dis a
    let a := if h2pca_locked_CHK_STATE HOST_CONNECTED_BIT a then a.emit Ev.h2pc_disconnect_http2 else a
    let a := h2pca_locked_CLR_ALL_STATES a
    let a := h2pca_locked_CLR_STATE WIFI_CONNECTED_BIT a
    .ok (a.emit Ev.h2pc_reset_buffers)
  | .other => .ok a

/-! ## System probes and error check (wch2pcapp.c, lines 398-470) -/

/-- Lines 398-406; `isempty` is what `h2pc_im_locked_waiting ()` returns. -/
def __msgs_get_cb (isempty : Bool) (a : App) : App :=
  if isempty then
    if h2pca_locked_CHK_STATE HOST_CONNECTED_BIT a then h2pca_locked_SET_STATE MODE_RECIEVE_MSG a
    else a
  else a

/-- Lines 408-417; `isnempty` is what `h2pc_om_locked_waiting ()` returns. -/
def __msgs_send_cb (isnempty : Bool) (a : App) : App :=
  if isnempty then
    if h2pca_locked_CHK_STATE HOST_CONNECTED_BIT a then h2pca_locked_SET_STATE MODE_SEND_MSG a
    else a
  else a

/-- Lines 434-453; `connected`, `errcnt` and `err` are what `h2pc_get_connected ()`,
`h2pc_get_protocol_errors_cnt ()` and `h2pc_get_last_error ()` return. -/
def __check_h2pc_errors (K : Consts) (connected : Bool) (errcnt : Int) (err : Int) (a : App) : App :=
  if h2pca_locked_CHK_STATE (WIFI_CONNECTED_BIT ||| HOST_CONNECTED_BIT) a then
    if connected then
      if errcnt > 0 then
        let a := if err != K.REST_RESULT_OK then EXEC_CB a.cfg.on_error (Ev.cb_on_error err) a else a
        if err == K.REST_ERR_NO_SUCH_SESSION then
          h2pca_locked_SET_STATE MODE_AUTH (h2pca_locked_CLR_STATE AUTHORIZED_BIT a)
        else
          __disconnect_host a
      else a
    else
      __disconnect_host a
  else a

/-- Lines 460-464; `res` is what `h2pc_req_get_msgs_sync ()` returns. -/
def __recieve_msgs (res : Int) (a : App) : App :=
  let a := a.emit Ev.h2pc_req_get_msgs_sync
  if res == ESP_OK then h2pca_locked_CLR_STATE MODE_RECIEVE_MSG a else a

/-- Lines 466-470; `res` is what `h2pc_req_send_msgs_sync ()` returns. -/
def __send_msgs (res : Int) (a : App) : App :=
  let a := a.emit Ev.h2pc_req_send_msgs_sync
  if res == ESP_OK then h2pca_locked_CLR_STATE MODE_SEND_MSG a else a

/-! ## Main loop (wch2pcapp.c, lines 608-726) -/

/-- The singleton together with the locals of `__main_task` that live across ticks. -/
structure MainLoop where
  app : App := {}
  connectDelay : Int := 0
  wifiDisconnectedTime : Int := 0
  deriving DecidableEq, Repr

/-- Lines 660-686, the branch of a tick taken when the link is up and the host is not
connected; `main_loop_period` is `app.cfg->main_loop_period` (a `uint32_t`),
`connected` is what `h2pc_connect_to_http2` returns if it is called. -/
def __main_task_connect_branch (K : Consts) (main_loop_period : Nat) (connected : Bool)
    (l : MainLoop) : Except (Abort MainLoop) MainLoop :=
  let l := { l with connectDelay := wrapInt32 (l.connectDelay - (main_loop_period % 4294967296 : Nat)) }
  if l.connectDelay <= 0 then
    let l := { l with app := __connect_to_http2 connected l.app }
    if l.app.connect_errors != 0 then
      if l.app.connect_errors == 11 then
        .ok { l with connectDelay := wrapInt32 (300 * K.configTICK_RATE_HZ) }
      else if l.app.connect_errors == 12 then
        .error ⟨ESP_ERR_INVALID_STATE, l⟩
      else
        .ok { l with connectDelay := wrapInt32 (l.app.connect_errors * 10 * K.configTICK_RATE_HZ) }
    else
      .ok { l with connectDelay := 0 }
  else .ok l

/-! ## Task descriptors and the task pool (wch2pcapp.h, lines 74-116; wch2pcapp.c, lines 89-119) -/

def ESP_ERR_NO_MEM : Int := 0x101
def ESP_ERR_INVALID_ARG : Int := 0x102

/-- The `h2pca_task` of wch2pcapp.h; `on_time` and `on_sync` say whether the callback
pointer is non-NULL, `user_data` stands for the `void *`. -/
structure h2pca_task where
  TAG : String := ""
  ID : Nat := 0
  period : Nat := 0
  req_bitmask : Nat := 0
  apply_bitmask : Nat := 0
  on_time : Bool := false
  on_sync : Bool := false
  user_data : Nat := 0
  deriving DecidableEq, Repr

/-- The `h2pca_tasks` of wch2pcapp.h: `tasks` is `none` for a NULL pointer, else the
slots of the allocated block, a slot being `none` until it is written. -/
structure h2pca_tasks where
  cnt : Int := 0
  tasks : Option (List (Option h2pca_task)) := none
  deriving DecidableEq, Repr

/-- What `realloc` does to the slots of a block: the first `n` are kept, new ones are
not written yet. -/
def reallocSlots (old : List (Option h2pca_task)) (n : Nat) : List (Option h2pca_task) :=
  (old ++ List.replicate (n - old.length) none).take n

/-- Lines 103-119; `alloc` says whether `malloc` / `realloc` returns a block, `pool` and
`tsk` are `none` for NULL. Returns the error code and the pool afterwards. A write past
the end of the block (only possible when `cnt` does not match the block) is not modelled. -/
def h2pca_task_pool_add_task (alloc : Bool) (pool : Option h2pca_tasks)
    (tsk : Option h2pca_task) : Int × Option h2pca_tasks :=
  match pool with
  | none => (ESP_ERR_INVALID_ARG, none)
  | some pool =>
    match tsk with
    | none => (ESP_ERR_INVALID_ARG, some pool)
    | some tsk =>
      let block : Option (List (Option h2pca_task)) :=
        if alloc then
          match pool.tasks with
          | none => some [none]
          | some old => some (reallocSlots old (pool.cnt + 1).toNat)
        else none
      match block with
      | none => (ESP_ERR_NO_MEM, some { pool with tasks := none })
      | some block =>
        (ESP_OK, some { cnt := wrapInt32 (pool.cnt + 1),
                        tasks := some (block.set pool.cnt.toNat (some tsk)) })

/-- Lines 419-432: the async fire of a user task. -/
def __user_task_cb (tsk : h2pca_task) (a : App) : App :=
  if h2pca_locked_CHK_STATE tsk.req_bitmask a then
    if tsk.on_time then a.emit (Ev.cb_on_time tsk.ID tsk.user_data)
    else h2pca_locked_SET_STATE tsk.apply_bitmask a
  else a

/-! ## One tick of the main loop (wch2pcapp.c, lines 611-726) -/

def SYS_TASK_SEND : Nat := 0
def SYS_TASK_RECV : Nat := 1

/-- What `h2pc_get_connected ()`, `h2pc_get_protocol_errors_cnt ()` and
`h2pc_get_last_error ()` return to one call of `__check_h2pc_errors`. -/
structure ErrProbe where
  connected : Bool := true
  errcnt : Int := 0
  err : Int := 0
  deriving DecidableEq, Repr

/-- What the collaborators return during one tick: to the authorize step and its error
check, to the receive step and its error check, to the send step and its error check, to
the connect attempt, to `esp_wifi_connect`, and what the sync callback of task `i`
leaves in its `restart_period` slot (`none` when it does not write it). -/
structure TickEnv where
  authRes : Int := 0
  authErr : Int := 0
  device : String := ""
  chkAuth : ErrProbe := {}
  recvRes : Int := 0
  chkRecv : ErrProbe := {}
  sendRes : Int := 0
  chkSend : ErrProbe := {}
  connected : Bool := true
  wifiRes : Int := 0
  slot : Nat → Option Nat := fun _ => none

/-- The main-loop locals and singleton, the heap of task descriptors (a pointer to a
descriptor is its index in `heap`), and the pointers `app.cfg->tasks.tasks[i]` in pool
order (`user_tasks_cnt` of them; the same pointer may occur more than once). -/
structure Sched where
  loop : MainLoop := {}
  heap : List h2pca_task := []
  tasks : List Nat := []
  deriving DecidableEq, Repr

/-- Apply a step of the singleton inside the main-loop state. -/
def Sched.onApp (f : App → App) (s : Sched) : Sched :=
  { s with loop := { s.loop with app := f s.loop.app } }

def esp_timer_stop (h : TimerHandle) (a : App) : App :=
  a.emit (Ev.esp_timer_stop h)

def esp_timer_start_periodic (h : TimerHandle) (period : Nat) (a : App) : App :=
  a.emit (Ev.esp_timer_start_periodic h period)

/-- Lines 633-636: the authorization step with its error check. -/
def __main_task_auth_step (K : Consts) (env : TickEnv) (a : App) : App :=
  if h2pca_locked_CHK_STATE MODE_AUTH a then
    let a := __send_authorize K env.authRes env.authErr env.device a
    __check_h2pc_errors K env.chkAuth.connected env.chkAuth.errcnt env.chkAuth.err a
  else a

/-- Lines 638-643: the receive step with its error check. -/
def __main_task_recv_step (K : Consts) (env : TickEnv) (a : App) : App :=
  if h2pca_locked_CHK_STATE MODE_RECIEVE_MSG a then
    let a := esp_timer_stop (TimerHandle.sys SYS_TASK_RECV) a
    let a := __recieve_msgs env.recvRes a
    let a := __check_h2pc_errors K env.chkRecv.connected env.chkRecv.errcnt env.chkRecv.err a
    esp_timer_start_periodic (TimerHandle.sys SYS_TASK_RECV) a.cfg.recv_msgs_period a
  else a

/-- Lines 645-650: hand a chunk of buffered incoming messages to the handler. -/
def __main_task_proceed_inmsgs (a : App) : App :=
  let a := EXEC_CB a.cfg.on_before_inmsgs Ev.cb_on_before_inmsgs a
  let a := a.emit (Ev.h2pc_im_proceed a.cfg.on_next_inmsg a.cfg.inmsgs_proceed_chunk)
  EXEC_CB a.cfg.on_after_inmsgs Ev.cb_on_after_inmsgs a

/-- Lines 653-658: the send step with its error check. -/
def __main_task_send_step (K : Consts) (env : TickEnv) (a : App) : App :=
  if h2pca_locked_CHK_STATE MODE_SEND_MSG a then
    let a := esp_timer_stop (TimerHandle.sys SYS_TASK_SEND) a
    let a := __send_msgs env.sendRes a
    let a := __check_h2pc_errors K env.chkSend.connected env.chkSend.errcnt env.chkSend.err a
    esp_timer_start_periodic (TimerHandle.sys SYS_TASK_SEND) a.cfg.send_msgs_period a
  else a

/-- Lines 630-658: the branch of a tick taken when the host-connected bit is set. -/
def __main_task_host_branch (K : Consts) (env : TickEnv) (a : App) : App :=
  let a := __main_task_auth_step K env a
  let a := __main_task_recv_step K env a
  let a := __main_task_proceed_inmsgs a
  __main_task_send_step K env a

/-- Lines 688-703: the branch of a tick taken when the link-up bit is not set. -/
def __main_task_link_down_branch (K : Consts) (wifiRes : Int) (l : MainLoop) :
    Except (Abort MainLoop) MainLoop :=
  let period : Int := ((l.app.cfg.main_loop_period % 4294967296 : Nat) : Int)
  let l := { l with wifiDisconnectedTime := wrapInt32 (l.wifiDisconnectedTime + period) }
  if l.wifiDisconnectedTime > 900000 then .error ⟨ESP_ERR_INVALID_STATE, l⟩
  else
    let l := { l with connectDelay := wrapInt32 (l.connectDelay - period) }
    if l.connectDelay <= 0 && l.app.wifi_connect_errors != 0 then
      let l := { l with app := { l.app with wifi_connect_errors := 0 }.emit Ev.esp_wifi_connect }
      if wifiRes != ESP_OK then .error ⟨wifiRes, l⟩
      else .ok { l with connectDelay := wrapInt32 (30 * K.configTICK_RATE_HZ) }
    else .ok l

/-- The store `tsk->period = p` of line 715, `tsk` being the pointer `ptr`. -/
def store_task_period (ptr p : Nat) (s : Sched) : Sched :=
  match s.heap.get? ptr with
  | none => s
  | some tsk =>
    { s.onApp (fun a => a.emit (Ev.store_task_period ptr p)) with
      heap := s.heap.set ptr { tsk with period := p } }

/-- Lines 706-720: the sync inspection of the task at index `i` of the pool; `slot` is
what its sync callback leaves in `restart_period` (`none`: the pre-loaded period is left
there). A pool entry that points to no descriptor is not modelled (skipped). -/
def __main_task_sync_task (slot : Option Nat) (i : Nat) (s : Sched) : Sched :=
  match s.tasks.get? i with
  | none => s
  | some ptr =>
    match s.heap.get? ptr with
    | none => s
    | some tsk =>
      if h2pca_locked_CHK_STATE (tsk.apply_bitmask ||| tsk.req_bitmask) s.loop.app then
        let p := tsk.period
        if tsk.on_sync then
          let s := s.onApp (fun a =>
            a.emit (Ev.cb_on_sync tsk.ID (h2pca_locked_GET_STATES a) tsk.user_data p))
          let p := slot.getD p
          if p != tsk.period then
            let s := s.onApp (esp_timer_stop (TimerHandle.user i))
            let s := store_task_period ptr p s
            s.onApp (esp_timer_start_periodic (TimerHandle.user i) p)
          else s
        else s
      else s

/-- Lines 705-721: the sync inspection of every task, in pool order. -/
def __main_task_sync_tasks (slot : Nat → Option Nat) (s : Sched) : Sched :=
  (List.range s.tasks.length).foldl (fun s i => __main_task_sync_task (slot i) i s) s

/-- Lines 615-703: the part of a tick before the task loop (begin-step callback, time
sync, then the host-connected, the connect or the link-down branch). -/
def __main_task_connection_part (K : Consts) (env : TickEnv) (l : MainLoop) :
    Except (Abort MainLoop) MainLoop :=
  let l := { l with app := EXEC_CB l.app.cfg.on_begin_step Ev.cb_on_begin_step l.app }
  if h2pca_locked_CHK_STATE WIFI_CONNECTED_BIT l.app then
    let l := { l with wifiDisconnectedTime := 0 }
    let l :=
      if h2pca_locked_CHK_STATE MODE_SETIME l.app then
        { l with app := h2pca_locked_CLR_STATE MODE_SETIME (l.app.emit Ev.set_time) }
      else l
    if h2pca_locked_CHK_STATE HOST_CONNECTED_BIT l.app then
      .ok { l with app := __main_task_host_branch K env l.app }
    else
      __main_task_connect_branch K l.app.cfg.main_loop_period env.connected l
  else
    __main_task_link_down_branch K env.wifiRes l

/-- Lines 611-726: one iteration of the `while (1)` of `__main_task`. -/
def __main_task_tick (K : Consts) (env : TickEnv) (s : Sched) : Except (Abort Sched) Sched :=
  match __main_task_connection_part K env s.loop with
  | .error ab => .error ⟨ab.code, { s with loop := ab.state }⟩
  | .ok l =>
    let s := __main_task_sync_tasks env.slot { s with loop := l }
    let s := s.onApp (fun a => EXEC_CB a.cfg.on_finish_step Ev.cb_on_finish_step a)
    .ok (s.onApp (fun a => a.emit (Ev.vTaskDelay a.cfg.main_loop_period)))

/-! ## The sync fire path as the specification words it -/

/-- All bits of `mask` are set in the register value `reg`. -/
def allBitsSet (reg mask : Nat) : Bool :=
  reg &&& mask == mask

/-- Following the specification: the descriptor `tsk` is due for its sync callback when it
has one and all bits of `req_bitmask | apply_bitmask` are set in the register. -/
def syncFireDue (reg : Nat) (tsk : h2pca_task) : Bool :=
  tsk.on_sync && allBitsSet reg (tsk.req_bitmask ||| tsk.apply_bitmask)

/-- Following the specification: the period stored in the descriptor after its sync
inspection; `slot` is what the callback leaves in its period slot. -/
def syncFirePeriod (reg : Nat) (tsk : h2pca_task) (slot : Option Nat) : Nat :=
  if syncFireDue reg tsk then slot.getD tsk.period else tsk.period

/-- Following the specification: what the sync inspection of the descriptor `tsk` (at
address `ptr`, index `i` of the pool) issues. The callback, with `ID`, the register,
`user_data` and the stored period in the slot, exactly when the descriptor is due; then,
only if the callback left a period different from the stored one, the stop of the task's
timer, the update of the period field, and the restart of the timer with the new period,
in this order. -/
def syncFireExpected (reg i ptr : Nat) (tsk : h2pca_task) (slot : Option Nat) : List Ev :=
  if syncFireDue reg tsk then
    Ev.cb_on_sync tsk.ID reg tsk.user_data tsk.period ::
      (if slot.getD tsk.period = tsk.period then []
       else [Ev.esp_timer_stop (TimerHandle.user i),
             Ev.store_task_period ptr (slot.getD tsk.period),
             Ev.esp_timer_start_periodic (TimerHandle.user i) (slot.getD tsk.period)])
  else []

/-- Following the specification: the sync fire path of one tick inspects every entry of
the pool, in pool order (`i` is the index of the first entry of `ptrs`); it returns what
is issued and the heap of descriptors afterwards. -/
def syncPassExpected (reg : Nat) (slot : Nat → Option Nat) :
    Nat → List Nat → List h2pca_task → List Ev × List h2pca_task
  | _, [], heap => ([], heap)
  | i, ptr :: rest, heap =>
    match heap.get? ptr with
    | none => syncPassExpected reg slot (i + 1) rest heap
    | some tsk =>
      let r := syncPassExpected reg slot (i + 1) rest
        (heap.set ptr { tsk with period := syncFirePeriod reg tsk (slot i) })
      (syncFireExpected reg i ptr tsk (slot i) ++ r.1, r.2)

/-! ## Reachable states of the connection state machine -/

/-- The states of the singleton that the transitions of the connection state machine
reach from an all-zero register: link notifications (`event_handler`), the connect
attempt, the authorize step, the protocol-error check, the receive and send steps, the
disconnect action and the two system probes, each from any reachable state and with any
answer of the collaborators. -/
inductive Reachable (K : Consts) : App → Prop where
  | init (a : App) (h : a.client_state = 0) : Reachable K a
  | notify (a a' : App) (ev : SystemEvent) (wifiRes : Int) :
      Reachable K a → event_handler ev wifiRes a = .ok a' → Reachable K a'
  | connect (a : App) (connected : Bool) :
      Reachable K a → Reachable K (__connect_to_http2 connected a)
  | authorize (a : App) (res err : Int) (dev : String) :
      Reachable K a → Reachable K (__send_authorize K res err dev a)
  | check_errors (a : App) (connected : Bool) (errcnt err : Int) :
      Reachable K a → Reachable K (__check_h2pc_errors K connected errcnt err a)
  | recieve_msgs (a : App) (res : Int) :
      Reachable K a → Reachable K (__recieve_msgs res a)
  | send_msgs (a : App) (res : Int) :
      Reachable K a → Reachable K (__send_msgs res a)
  | disconnect (a : App) :
      Reachable K a → Reachable K (__disconnect_host a)
  | msgs_get_cb (a : App) (waiting : Bool) :
      Reachable K a → Reachable K (__msgs_get_cb waiting a)
  | msgs_send_cb (a : App) (waiting : Bool) :
      Reachable K a → Reachable K (__msgs_send_cb waiting a)

/-! ## Helper lemmas on the register -/

theorem chk_eq (m : Nat) (a : App) :
    h2pca_locked_CHK_STATE m a = ((a.client_state &&& m) == m) := rfl

theorem land_eq_iff_testBit (s m : Nat) :
    s &&& m = m ↔ ∀ i, m.testBit i = true → s.testBit i = true := by
  constructor
  · intro h i hi
    have h1 : (s &&& m).testBit i = true := by rw [h]; exact hi
    rw [Nat.testBit_and] at h1
    simp only [Bool.and_eq_true] at h1
    exact h1.1
  · intro h
    apply Nat.eq_of_testBit_eq
    intro i
    rw [Nat.testBit_and]
    cases hm : m.testBit i
    · simp
    · simp [h i hm]

/-- The disconnect action in closed form. -/
theorem disconnect_host_eq (a : App) :
    __disconnect_host a =
      { a with
        client_state := a.client_state &&& 0xFF000001
        trace := a.trace
          ++ [if h2pca_locked_CHK_STATE HOST_CONNECTED_BIT a then Ev.h2pc_disconnect_http2
              else Ev.h2pc_reset_buffers]
          ++ (if a.cfg.on_disconnect then [Ev.cb_on_disconnect] else []) } := by
  unfold __disconnect_host EXEC_CB h2pca_locked_CLR_ALL_STATES App.emit xEventGroupClearBits
  cases h1 : h2pca_locked_CHK_STATE HOST_CONNECTED_BIT a <;>
    cases h2 : a.cfg.on_disconnect <;> simp [h2, MODE_ALL]

theorem disconnect_host_connect_errors (a : App) :
    (__disconnect_host a).connect_errors = a.connect_errors := by
  rw [disconnect_host_eq]

theorem connect_fail_connect_errors (a : App) :
    (__connect_to_http2 false a).connect_errors = wrapInt32 (a.connect_errors + 1) := by
  simp [__connect_to_http2, App.emit, disconnect_host_connect_errors]

theorem connect_ok_connect_errors (a : App) :
    (__connect_to_http2 true a).connect_errors = 0 := by
  simp [__connect_to_http2, h2pca_locked_SET_STATE]

/-- The connect branch once the countdown has run out. -/
theorem connect_branch_due (K : Consts) (period : Nat) (c : Bool) (l : MainLoop)
    (hdue : wrapInt32 (l.connectDelay - ((period % 4294967296 : Nat) : Int)) ≤ 0) :
    __main_task_connect_branch K period c l =
      let d := wrapInt32 (l.connectDelay - ((period % 4294967296 : Nat) : Int))
      let a := __connect_to_http2 c l.app
      if a.connect_errors != 0 then
        if a.connect_errors == 11 then
          .ok { l with app := a, connectDelay := wrapInt32 (300 * K.configTICK_RATE_HZ) }
        else if a.connect_errors == 12 then
          .error ⟨ESP_ERR_INVALID_STATE, { l with app := a, connectDelay := d }⟩
        else
          .ok { l with app := a,
                       connectDelay := wrapInt32 (a.connect_errors * 10 * K.configTICK_RATE_HZ) }
      else
        .ok { l with app := a, connectDelay := 0 } := by
  unfold __main_task_connect_branch
  simp only [hdue, if_true]

/-- A bit outside the kept mask is clear after masking. -/
theorem chk_masked_false (a : App) (s keep b : Nat) (ha : a.client_state = s &&& keep)
    (h : keep &&& b = 0) (hb : b ≠ 0) :
    h2pca_locked_CHK_STATE b a = false := by
  rw [chk_eq, ha, Nat.and_assoc, h, Nat.and_zero]
  simpa using hb.symm

/-- A bit inside the kept mask is unchanged by masking. -/
theorem chk_masked_same (a' a : App) (keep b : Nat)
    (ha : a'.client_state = a.client_state &&& keep) (h : keep &&& b = b) :
    h2pca_locked_CHK_STATE b a' = h2pca_locked_CHK_STATE b a := by
  rw [chk_eq, chk_eq, ha, Nat.and_assoc, h]

/-- The authorize step on a protocol error "no such session", in closed form. -/
theorem send_authorize_no_session_eq (K : Consts) (dev : String) (a : App)
    (hP : K.H2PC_ERR_PROTOCOL ≠ ESP_OK) :
    __send_authorize K K.H2PC_ERR_PROTOCOL K.REST_ERR_NO_SUCH_SESSION dev a =
      { a with
        client_state := a.client_state &&& 0xFF000001
        trace := a.trace ++ [Ev.h2pc_req_authorize_sync]
          ++ (if K.REST_ERR_NO_SUCH_SESSION != K.REST_RESULT_OK && a.cfg.on_error
              then [Ev.cb_on_error K.REST_ERR_NO_SUCH_SESSION] else []) } := by
  unfold __send_authorize __consume_protocol_error EXEC_CB h2pca_locked_SET_STATE
    h2pca_locked_CLR_ALL_STATES App.emit xEventGroupClearBits
  have h1 : (K.H2PC_ERR_PROTOCOL == ESP_OK) = false := by simpa using hP
  have hc : (4278190081 &&& 4294967279 : Nat) = 4278190081 := by decide
  cases h2 : (K.REST_ERR_NO_SUCH_SESSION != K.REST_RESULT_OK) <;>
    cases h3 : a.cfg.on_error <;> simp [h1, h3, MODE_ALL, MODE_AUTH, Nat.and_assoc, hc]

/-! ## Claims -/

/-- C1 (evaluation at the failing input): on the all-zero register,
`h2pca_locked_SET_STATE (WIFI_CONNECTED_BIT)` leaves `h2pca_locked_GET_STATES` at 0, which
is not `0 OR WIFI_CONNECTED_BIT = 1`: the set route clears bits. -/
theorem C1_set_state_clears :
    h2pca_locked_GET_STATES (h2pca_locked_SET_STATE WIFI_CONNECTED_BIT { client_state := 0 }) = 0
    ∧ h2pca_locked_GET_STATES (h2pca_locked_SET_STATE WIFI_CONNECTED_BIT { client_state := 0 })
        ≠ (0 ||| WIFI_CONNECTED_BIT) := by
  decide

/-- C2 (evaluation at the failing input): on the all-zero register,
`h2pca_locked_CLR_STATE (MODE_SETIME)` leaves `h2pca_locked_GET_STATES` at 8, so the bit of
the mask is set afterwards instead of cleared: the clear route sets bits. -/
theorem C2_clr_state_sets :
    h2pca_locked_GET_STATES (h2pca_locked_CLR_STATE MODE_SETIME { client_state := 0 }) = 8
    ∧ h2pca_locked_CHK_STATE MODE_SETIME
        (h2pca_locked_CLR_STATE MODE_SETIME { client_state := 0 }) = true := by
  decide

/-- C3: `h2pca_locked_CHK_STATE (m)` is true exactly when every bit of `m` is set in the
register; it is true for the empty mask; it only reads the register (it is a function of
the state that returns nothing but the boolean). -/
theorem C3_chk_state_iff_all_bits (m : Nat) (a : App) :
    (h2pca_locked_CHK_STATE m a = true
      ↔ ∀ i, m.testBit i = true → (h2pca_locked_GET_STATES a).testBit i = true)
    ∧ h2pca_locked_CHK_STATE 0 a = true := by
  constructor
  · rw [chk_eq, beq_iff_eq, land_eq_iff_testBit]
    rfl
  · simp [chk_eq]

/-- C4: in the host-connect branch of the main loop, once the countdown has run out and
the attempt is made: a failed attempt that brings the failure counter to `n` sets the
countdown to `n * 10 * configTICK_RATE_HZ` for `1 ≤ n ≤ 10`, to `300 * configTICK_RATE_HZ`
for `n = 11`, and for `n = 12` aborts with `ESP_ERR_INVALID_STATE` without assigning the
countdown; a successful attempt sets the countdown to 0 (and the counter to 0). The tick
rate is a non-negative `int` for which `300 * configTICK_RATE_HZ` fits in an `int`. -/
theorem C4_connect_backoff (K : Consts) (period : Nat) (l : MainLoop) (n : Int)
    (hhz : 0 ≤ K.configTICK_RATE_HZ) (hfit : 300 * K.configTICK_RATE_HZ ≤ 2147483647)
    (hdue : wrapInt32 (l.connectDelay - ((period % 4294967296 : Nat) : Int)) ≤ 0)
    (hn : l.app.connect_errors = n - 1) :
    (1 ≤ n → n ≤ 10 → ∃ l', __main_task_connect_branch K period false l = .ok l'
        ∧ l'.connectDelay = n * 10 * K.configTICK_RATE_HZ ∧ l'.app.connect_errors = n)
    ∧ (n = 11 → ∃ l', __main_task_connect_branch K period false l = .ok l'
        ∧ l'.connectDelay = 300 * K.configTICK_RATE_HZ ∧ l'.app.connect_errors = 11)
    ∧ (n = 12 → ∃ l', __main_task_connect_branch K period false l
          = .error ⟨ESP_ERR_INVALID_STATE, l'⟩
        ∧ l'.connectDelay = wrapInt32 (l.connectDelay - ((period % 4294967296 : Nat) : Int))
        ∧ l'.app.connect_errors = 12)
    ∧ (∃ l', __main_task_connect_branch K period true l = .ok l'
        ∧ l'.connectDelay = 0 ∧ l'.app.connect_errors = 0) := by
  have hce : (__connect_to_http2 false l.app).connect_errors = wrapInt32 n := by
    rw [connect_fail_connect_errors, hn]; congr 1; omega
  refine ⟨?_, ?_, ?_, ?_⟩
  · intro h1 h10
    have hw : wrapInt32 n = n := by unfold wrapInt32; omega
    have hw2 : wrapInt32 (n * 10 * K.configTICK_RATE_HZ) = n * 10 * K.configTICK_RATE_HZ := by
      have hb : n * 10 * K.configTICK_RATE_HZ ≤ 2147483647 := by nlinarith
      have hb0 : 0 ≤ n * 10 * K.configTICK_RATE_HZ := by positivity
      unfold wrapInt32; omega
    rw [hw] at hce
    rw [connect_branch_due K period false l hdue]
    have hne0 : (n != 0) = true := by simp; omega
    have hne11 : (n == 11) = false := by simp; omega
    have hne12 : (n == 12) = false := by simp; omega
    simp only [hce, hne0, hne11, hne12, if_true, Bool.false_eq_true, if_false]
    exact ⟨_, rfl, hw2, hce⟩
  · intro h11
    subst h11
    have hw : wrapInt32 11 = 11 := by decide
    have hw2 : wrapInt32 (300 * K.configTICK_RATE_HZ) = 300 * K.configTICK_RATE_HZ := by
      unfold wrapInt32; omega
    rw [hw] at hce
    rw [connect_branch_due K period false l hdue]
    simp only [hce]
    exact ⟨_, rfl, hw2, hce⟩
  · intro h12
    subst h12
    have hw : wrapInt32 12 = 12 := by decide
    rw [hw] at hce
    rw [connect_branch_due K period false l hdue]
    simp only [hce]
    exact ⟨_, rfl, rfl, hce⟩
  · rw [connect_branch_due K period true l hdue]
    simp only [connect_ok_connect_errors]
    exact ⟨_, rfl, rfl, connect_ok_connect_errors _⟩

/-- Witness of C4: with a tick rate of 100 Hz, a tick period of 200, a countdown at 0 and
two earlier failures, the third failure sets the countdown to 3000. -/
theorem C4_connect_backoff_witness :
    (0 : Int) ≤ sampleConsts.configTICK_RATE_HZ
    ∧ 300 * sampleConsts.configTICK_RATE_HZ ≤ 2147483647
    ∧ wrapInt32 ((0 : Int) - ((200 % 4294967296 : Nat) : Int)) ≤ 0
    ∧ ∃ l', __main_task_connect_branch sampleConsts 200 false
          { app := { connect_errors := 2 }, connectDelay := 0 } = .ok l'
        ∧ l'.connectDelay = 3 * 10 * sampleConsts.configTICK_RATE_HZ
        ∧ l'.app.connect_errors = 3 :=
  ⟨by decide, by decide, by decide,
    (C4_connect_backoff sampleConsts 200 { app := { connect_errors := 2 }, connectDelay := 0 } 3
      (by decide) (by decide) (by decide) (by decide)).1 (by decide) (by decide)⟩

/-- C5 (evaluation at the failing input): with link-up, host-connected and authorized set
(register 7), transport connected, one protocol error and last error
`REST_ERR_NO_SUCH_SESSION`, `__check_h2pc_errors` leaves the register at 7: the
authorized bit is still set and `MODE_AUTH` is still clear. -/
theorem C5_check_errors_keeps_authorized (K : Consts) :
    (__check_h2pc_errors K true 1 K.REST_ERR_NO_SUCH_SESSION { client_state := 7 }).client_state = 7
    ∧ h2pca_locked_CHK_STATE AUTHORIZED_BIT
        (__check_h2pc_errors K true 1 K.REST_ERR_NO_SUCH_SESSION { client_state := 7 }) = true
    ∧ h2pca_locked_CHK_STATE MODE_AUTH
        (__check_h2pc_errors K true 1 K.REST_ERR_NO_SUCH_SESSION { client_state := 7 }) = false := by
  have h : __check_h2pc_errors K true 1 K.REST_ERR_NO_SUCH_SESSION { client_state := 7 }
      = { client_state := 7 } := by
    simp [__check_h2pc_errors, chk_eq, EXEC_CB, h2pca_locked_SET_STATE, h2pca_locked_CLR_STATE,
      xEventGroupSetBits, xEventGroupClearBits, WIFI_CONNECTED_BIT, HOST_CONNECTED_BIT,
      AUTHORIZED_BIT, MODE_AUTH]
    decide
  rw [h]
  decide

/-- C6 (counterexample): from register `0x13` (link-up, host-connected, need-authorize),
`__send_authorize` on `H2PC_ERR_PROTOCOL` with last error `REST_ERR_NO_SUCH_SESSION`
leaves the host-connected bit clear, not set. -/
theorem C6_counterexample_host_bit_cleared :
    h2pca_locked_CHK_STATE HOST_CONNECTED_BIT ({ client_state := 0x13 } : App) = true
    ∧ h2pca_locked_CHK_STATE MODE_AUTH ({ client_state := 0x13 } : App) = true
    ∧ h2pca_locked_CHK_STATE HOST_CONNECTED_BIT
        (__send_authorize sampleConsts sampleConsts.H2PC_ERR_PROTOCOL
          sampleConsts.REST_ERR_NO_SUCH_SESSION "dev" { client_state := 0x13 }) = false := by
  decide

/-- C6 (amended): for every state with host-connected and need-authorize set, when
`__send_authorize` gets `H2PC_ERR_PROTOCOL` (an error code, so not `ESP_OK`) and the last
error is `REST_ERR_NO_SUCH_SESSION`, afterwards the host-connected bit is clear, the
link-up bit is as it was, and `h2pc_disconnect_http2` was not invoked. -/
theorem C6_send_authorize_no_such_session (K : Consts) (dev : String) (a : App)
    (hP : K.H2PC_ERR_PROTOCOL ≠ ESP_OK)
    (_hHost : h2pca_locked_CHK_STATE HOST_CONNECTED_BIT a = true)
    (_hAuth : h2pca_locked_CHK_STATE MODE_AUTH a = true) :
    h2pca_locked_CHK_STATE HOST_CONNECTED_BIT
        (__send_authorize K K.H2PC_ERR_PROTOCOL K.REST_ERR_NO_SUCH_SESSION dev a) = false
    ∧ h2pca_locked_CHK_STATE WIFI_CONNECTED_BIT
        (__send_authorize K K.H2PC_ERR_PROTOCOL K.REST_ERR_NO_SUCH_SESSION dev a)
        = h2pca_locked_CHK_STATE WIFI_CONNECTED_BIT a
    ∧ List.count Ev.h2pc_disconnect_http2
        (__send_authorize K K.H2PC_ERR_PROTOCOL K.REST_ERR_NO_SUCH_SESSION dev a).trace
        = List.count Ev.h2pc_disconnect_http2 a.trace := by
  rw [send_authorize_no_session_eq K dev a hP]
  refine ⟨?_, ?_, ?_⟩
  · exact chk_masked_false _ a.client_state 0xFF000001 _ rfl (by decide) (by decide)
  · exact chk_masked_same _ a 0xFF000001 _ rfl (by decide)
  · cases (K.REST_ERR_NO_SUCH_SESSION != K.REST_RESULT_OK && a.cfg.on_error) <;> simp

/-- Witness of C6 (amended): register `0x13` with the sample constants. -/
theorem C6_send_authorize_no_such_session_witness :
    sampleConsts.H2PC_ERR_PROTOCOL ≠ ESP_OK
    ∧ h2pca_locked_CHK_STATE HOST_CONNECTED_BIT ({ client_state := 0x13 } : App) = true
    ∧ h2pca_locked_CHK_STATE MODE_AUTH ({ client_state := 0x13 } : App) = true
    ∧ (h2pca_locked_CHK_STATE HOST_CONNECTED_BIT
        (__send_authorize sampleConsts sampleConsts.H2PC_ERR_PROTOCOL
          sampleConsts.REST_ERR_NO_SUCH_SESSION "dev" { client_state := 0x13 }) = false
      ∧ h2pca_locked_CHK_STATE WIFI_CONNECTED_BIT
        (__send_authorize sampleConsts sampleConsts.H2PC_ERR_PROTOCOL
          sampleConsts.REST_ERR_NO_SUCH_SESSION "dev" { client_state := 0x13 })
        = h2pca_locked_CHK_STATE WIFI_CONNECTED_BIT ({ client_state := 0x13 } : App)
      ∧ List.count Ev.h2pc_disconnect_http2
        (__send_authorize sampleConsts sampleConsts.H2PC_ERR_PROTOCOL
          sampleConsts.REST_ERR_NO_SUCH_SESSION "dev" { client_state := 0x13 }).trace
        = List.count Ev.h2pc_disconnect_http2 ({ client_state := 0x13 } : App).trace) :=
  ⟨by decide, by decide, by decide,
    C6_send_authorize_no_such_session sampleConsts "dev" { client_state := 0x13 }
      (by decide) (by decide) (by decide)⟩

/-- C7: for every state, `__disconnect_host` leaves every bit of `MODE_ALL` clear (so
host-connected, authorized, need-set-time, need-authorize, need-receive and need-send are
clear) and the link-up bit as it was; when the host-connected bit was set it calls
`h2pc_disconnect_http2` exactly once and `h2pc_reset_buffers` not at all, otherwise it calls
`h2pc_reset_buffers` exactly once and `h2pc_disconnect_http2` not at all. -/
theorem C7_disconnect_host_clears_group (a : App) :
    (__disconnect_host a).client_state &&& MODE_ALL = 0
    ∧ h2pca_locked_CHK_STATE HOST_CONNECTED_BIT (__disconnect_host a) = false
    ∧ h2pca_locked_CHK_STATE AUTHORIZED_BIT (__disconnect_host a) = false
    ∧ h2pca_locked_CHK_STATE MODE_SETIME (__disconnect_host a) = false
    ∧ h2pca_locked_CHK_STATE MODE_AUTH (__disconnect_host a) = false
    ∧ h2pca_locked_CHK_STATE MODE_RECIEVE_MSG (__disconnect_host a) = false
    ∧ h2pca_locked_CHK_STATE MODE_SEND_MSG (__disconnect_host a) = false
    ∧ h2pca_locked_CHK_STATE WIFI_CONNECTED_BIT (__disconnect_host a)
        = h2pca_locked_CHK_STATE WIFI_CONNECTED_BIT a
    ∧ List.count Ev.h2pc_disconnect_http2 (__disconnect_host a).trace
        = List.count Ev.h2pc_disconnect_http2 a.trace
          + (if h2pca_locked_CHK_STATE HOST_CONNECTED_BIT a then 1 else 0)
    ∧ List.count Ev.h2pc_reset_buffers (__disconnect_host a).trace
        = List.count Ev.h2pc_reset_buffers a.trace
          + (if h2pca_locked_CHK_STATE HOST_CONNECTED_BIT a then 0 else 1) := by
  have hs : (__disconnect_host a).client_state = a.client_state &&& 0xFF000001 := by
    rw [disconnect_host_eq]
  have ht := congrArg App.trace (disconnect_host_eq a)
  refine ⟨?_, ?_, ?_, ?_, ?_, ?_, ?_, ?_, ?_, ?_⟩
  · rw [hs, Nat.and_assoc]
    have hc : (0xFF000001 &&& MODE_ALL : Nat) = 0 := by decide
    rw [hc, Nat.and_zero]
  · exact chk_masked_false _ _ _ _ hs (by decide) (by decide)
  · exact chk_masked_false _ _ _ _ hs (by decide) (by decide)
  · exact chk_masked_false _ _ _ _ hs (by decide) (by decide)
  · exact chk_masked_false _ _ _ _ hs (by decide) (by decide)
  · exact chk_masked_false _ _ _ _ hs (by decide) (by decide)
  · exact chk_masked_false _ _ _ _ hs (by decide) (by decide)
  · exact chk_masked_same _ a _ _ hs (by decide)
  · rw [ht]
    cases h2pca_locked_CHK_STATE HOST_CONNECTED_BIT a <;> cases a.cfg.on_disconnect <;> simp
  · rw [ht]
    cases h2pca_locked_CHK_STATE HOST_CONNECTED_BIT a <;> cases a.cfg.on_disconnect <;> simp

/-- C8: `__disconnect_host` is idempotent on the register: run twice it leaves the same
register as run once; over the two runs `h2pc_disconnect_http2` is called exactly once
when the host-connected bit was set at the start and never otherwise. -/
theorem C8_disconnect_host_idempotent (a : App) :
    (__disconnect_host (__disconnect_host a)).client_state = (__disconnect_host a).client_state
    ∧ List.count Ev.h2pc_disconnect_http2 (__disconnect_host (__disconnect_host a)).trace
        = List.count Ev.h2pc_disconnect_http2 a.trace
          + (if h2pca_locked_CHK_STATE HOST_CONNECTED_BIT a then 1 else 0) := by
  have hs : (__disconnect_host a).client_state = a.client_state &&& 0xFF000001 := by
    rw [disconnect_host_eq]
  have hchk : h2pca_locked_CHK_STATE HOST_CONNECTED_BIT (__disconnect_host a) = false :=
    chk_masked_false _ _ _ _ hs (by decide) (by decide)
  have ht := congrArg App.trace (disconnect_host_eq a)
  have ht2 := congrArg App.trace (disconnect_host_eq (__disconnect_host a))
  have hcfg : (__disconnect_host a).cfg = a.cfg := by rw [disconnect_host_eq]
  constructor
  · rw [disconnect_host_eq (__disconnect_host a)]
    show (__disconnect_host a).client_state &&& 0xFF000001 = _
    rw [hs, Nat.and_assoc]
    rfl
  · rw [ht2, hchk, ht, hcfg]
    cases h2pca_locked_CHK_STATE HOST_CONNECTED_BIT a <;> cases a.cfg.on_disconnect <;> simp

/-- C9 (evaluation at the failing input): from register 7 (link-up, host-connected,
authorized) the link-loss notification returns with register 1: the downstream flags are
clear but the link-up bit is set. From the all-zero register it also returns with
register 1. -/
theorem C9_link_loss_sets_link_up :
    (∃ a', event_handler SystemEvent.SYSTEM_EVENT_STA_DISCONNECTED 0 { client_state := 7 }
        = .ok a' ∧ a'.client_state = 1 ∧ h2pca_locked_CHK_STATE WIFI_CONNECTED_BIT a' = true)
    ∧ (∃ a', event_handler SystemEvent.SYSTEM_EVENT_STA_DISCONNECTED 0 { client_state := 0 }
        = .ok a' ∧ a'.client_state = 1 ∧ h2pca_locked_CHK_STATE WIFI_CONNECTED_BIT a' = true) :=
  ⟨⟨_, rfl, by decide, by decide⟩, ⟨_, rfl, by decide, by decide⟩⟩

/-- C10 (evaluation at the failing input): with the host-connected bit set (register 2)
and messages waiting, `__msgs_get_cb` leaves the register at 2, need-receive not set; and
from register `0x22` it clears the need-receive bit. `__msgs_send_cb` does the same with
need-send (registers 2 and `0x42`). -/
theorem C10_probes_do_not_set :
    (__msgs_get_cb true { client_state := 2 }).client_state = 2
    ∧ h2pca_locked_CHK_STATE MODE_RECIEVE_MSG (__msgs_get_cb true { client_state := 2 }) = false
    ∧ (__msgs_get_cb true { client_state := 0x22 }).client_state = 2
    ∧ (__msgs_send_cb true { client_state := 2 }).client_state = 2
    ∧ h2pca_locked_CHK_STATE MODE_SEND_MSG (__msgs_send_cb true { client_state := 2 }) = false
    ∧ (__msgs_send_cb true { client_state := 0x42 }).client_state = 2 := by
  decide

/-! ## Helper lemmas on tasks -/

/-- The async fire of a task that has an async callback: the callback is called once,
with `(ID, user_data)`, exactly when the request mask is satisfied; nothing else changes. -/
theorem user_task_cb_on_time (tsk : h2pca_task) (a : App) (h : tsk.on_time = true) :
    __user_task_cb tsk a =
      if h2pca_locked_CHK_STATE tsk.req_bitmask a then
        { a with trace := a.trace ++ [Ev.cb_on_time tsk.ID tsk.user_data] }
      else a := by
  simp [__user_task_cb, h, App.emit]

/-- The async fire of a task without async callback. -/
theorem user_task_cb_no_on_time (tsk : h2pca_task) (a : App) (h : tsk.on_time = false) :
    __user_task_cb tsk a =
      if h2pca_locked_CHK_STATE tsk.req_bitmask a then
        { a with client_state := a.client_state &&& (0xFFFFFFFF ^^^ tsk.apply_bitmask) }
      else a := by
  simp [__user_task_cb, h, h2pca_locked_SET_STATE, xEventGroupClearBits]

theorem testBit_and_not_mask (s m j : Nat) (h32 : s < 4294967296) (hm : m.testBit j = false) :
    (s &&& (0xFFFFFFFF ^^^ m)).testBit j = s.testBit j := by
  have hM : (0xFFFFFFFF : Nat) = 2 ^ 32 - 1 := by norm_num
  rw [Nat.testBit_and, Nat.testBit_xor, hm, hM, Nat.testBit_two_pow_sub_one]
  by_cases hj : j < 32
  · simp [hj]
  · have hs : s.testBit j = false := by
      apply Nat.testBit_lt_two_pow
      calc s < 2 ^ 32 := by norm_num; exact h32
        _ ≤ 2 ^ j := Nat.pow_le_pow_right (by norm_num) (by omega)
    simp [hs]

/-! ## Claims on tasks -/

/-- C11 (evaluation at the failing input): for a descriptor without async callback, with
an empty request mask and `apply_bitmask = 0x80`, the async fire on the all-zero register
leaves the register at 0 (the apply bit is not set), and on register `0x80` it clears the
apply bit. -/
theorem C11_async_fire_apply_path_clears :
    (__user_task_cb { apply_bitmask := 0x80 } { client_state := 0 }).client_state = 0
    ∧ h2pca_locked_CHK_STATE 0x80
        (__user_task_cb { apply_bitmask := 0x80 } { client_state := 0 }) = false
    ∧ (__user_task_cb { apply_bitmask := 0x80 } { client_state := 0x80 }).client_state = 0 := by
  decide

/-- C12 (counterexample): a descriptor with neither callback, an empty request mask and
`apply_bitmask = 0x80` is not inert: its async fire changes register `0x80` (to 0). -/
theorem C12_counterexample_fire_changes_register :
    ({ apply_bitmask := 0x80 } : h2pca_task).on_time = false
    ∧ ({ apply_bitmask := 0x80 } : h2pca_task).on_sync = false
    ∧ (__user_task_cb { apply_bitmask := 0x80 } { client_state := 0x80 }).client_state ≠ 0x80 := by
  decide

/-- C12 (amended): for a descriptor with `on_time = NULL` and `on_sync = NULL` and a 32-bit
register: the sync inspection in the main loop changes nothing (register, periods,
timers); the async fire changes nothing but the register, changes nothing at all when the
request mask is not satisfied or when `apply_bitmask` is 0, and never changes a register
bit outside `apply_bitmask`. -/
theorem C12_no_callback_task (tsk : h2pca_task) (a : App) (s : Sched) (i ptr : Nat)
    (slot : Option Nat)
    (hon_time : tsk.on_time = false) (hon_sync : tsk.on_sync = false)
    (h32 : a.client_state < 4294967296)
    (hget : s.tasks.get? i = some ptr) (hobj : s.heap.get? ptr = some tsk) :
    __main_task_sync_task slot i s = s
    ∧ __user_task_cb tsk a = { a with client_state := (__user_task_cb tsk a).client_state }
    ∧ (h2pca_locked_CHK_STATE tsk.req_bitmask a = false → __user_task_cb tsk a = a)
    ∧ (tsk.apply_bitmask = 0 → __user_task_cb tsk a = a)
    ∧ (∀ j, tsk.apply_bitmask.testBit j = false →
        (__user_task_cb tsk a).client_state.testBit j = a.client_state.testBit j) := by
  have hfire := user_task_cb_no_on_time tsk a hon_time
  refine ⟨?_, ?_, ?_, ?_, ?_⟩
  · unfold __main_task_sync_task
    rw [hget]
    simp only []
    rw [hobj]
    simp [hon_sync]
  · rw [hfire]; split <;> rfl
  · intro hreq
    rw [hfire, hreq]; simp
  · intro h0
    rw [hfire, h0]
    have hM : (0xFFFFFFFF : Nat) = 2 ^ 32 - 1 := by norm_num
    have hs : a.client_state &&& (0xFFFFFFFF ^^^ 0) = a.client_state := by
      rw [Nat.xor_zero, hM]
      exact Nat.and_pow_two_sub_one_of_lt_two_pow (by norm_num; exact h32)
    rw [hs]; split <;> rfl
  · intro j hj
    rw [hfire]
    split
    · exact testBit_and_not_mask _ _ _ h32 hj
    · rfl

/-- Witness of C12 (amended): a callback-free descriptor with `apply_bitmask = 0x80`, the
only entry of the pool, register `0x81`. -/
theorem C12_no_callback_task_witness :
    ({ apply_bitmask := 0x80 } : h2pca_task).on_time = false
    ∧ ({ apply_bitmask := 0x80 } : h2pca_task).on_sync = false
    ∧ ({ client_state := 0x81 } : App).client_state < 4294967296
    ∧ ({ heap := [{ apply_bitmask := 0x80 }], tasks := [0] } : Sched).tasks.get? 0 = some 0
    ∧ ({ heap := [{ apply_bitmask := 0x80 }], tasks := [0] } : Sched).heap.get? 0
        = some { apply_bitmask := 0x80 }
    ∧ __main_task_sync_task (some 7) 0 { heap := [{ apply_bitmask := 0x80 }], tasks := [0] }
        = { heap := [{ apply_bitmask := 0x80 }], tasks := [0] }
    ∧ (__user_task_cb { apply_bitmask := 0x80 } { client_state := 0x81 }).client_state.testBit 0
        = ({ client_state := 0x81 } : App).client_state.testBit 0 :=
  have h := C12_no_callback_task { apply_bitmask := 0x80 } { client_state := 0x81 }
    { heap := [{ apply_bitmask := 0x80 }], tasks := [0] } 0 0 (some 7) rfl rfl (by decide)
    rfl rfl
  ⟨rfl, rfl, by decide, rfl, rfl, h.1, h.2.2.2.2 0 (by decide)⟩

/-! ## The sync fire path of a tick -/

theorem list_set_same {α : Type} (l : List α) (n : Nat) (x : α) (h : l.get? n = some x) :
    l.set n x = l := by
  induction l generalizing n with
  | nil => rfl
  | cons y l ih =>
    cases n with
    | zero =>
      simp only [List.get?_cons_zero, Option.some.injEq] at h
      rw [h]; rfl
    | succ n =>
      simp only [List.get?_cons_succ] at h
      simp only [List.set_cons_succ, ih n h]

theorem list_drop_cons {α : Type} (l : List α) (k : Nat) (x : α) (rest : List α)
    (h : l.drop k = x :: rest) : l.get? k = some x ∧ l.drop (k + 1) = rest := by
  induction l generalizing k with
  | nil => simp at h
  | cons y l ih =>
    cases k with
    | zero =>
      simp only [List.drop_zero, List.cons.injEq] at h
      simp [h.1, h.2]
    | succ k =>
      simp only [List.drop_succ_cons] at h
      simpa using ih k h

/-- The check of the main loop reads the mask as the specification does. -/
theorem chk_apply_req (req apply : Nat) (a : App) :
    h2pca_locked_CHK_STATE (apply ||| req) a = allBitsSet a.client_state (req ||| apply) := by
  rw [chk_eq, Nat.or_comm]
  rfl

/-- One sync inspection, in closed form. -/
theorem sync_task_eq (slot : Option Nat) (i ptr : Nat) (tsk : h2pca_task) (s : Sched)
    (hget : s.tasks.get? i = some ptr) (hobj : s.heap.get? ptr = some tsk) :
    __main_task_sync_task slot i s =
      { loop := { s.loop with app := { s.loop.app with
            trace := s.loop.app.trace
              ++ syncFireExpected s.loop.app.client_state i ptr tsk slot } },
        heap := s.heap.set ptr
          { tsk with period := syncFirePeriod s.loop.app.client_state tsk slot },
        tasks := s.tasks } := by
  obtain ⟨TAG, ID, period, req, apply, on_time, on_sync, ud⟩ := tsk
  have hsame := list_set_same _ _ _ hobj
  have hobj' : s.heap[ptr]? = some ⟨TAG, ID, period, req, apply, on_time, on_sync, ud⟩ := by
    rw [← List.get?_eq_getElem?]; exact hobj
  unfold __main_task_sync_task
  rw [hget]
  simp only []
  rw [hobj]
  simp only [chk_apply_req]
  cases hc : allBitsSet s.loop.app.client_state (req ||| apply)
  · simp [syncFireExpected, syncFirePeriod, syncFireDue, hc, hsame]
  · cases on_sync
    · simp [syncFireExpected, syncFirePeriod, syncFireDue, hc, hsame]
    · by_cases hp : slot.getD period = period
      · simp [syncFireExpected, syncFirePeriod, syncFireDue, hc, hp, hsame, Sched.onApp,
          App.emit, h2pca_locked_GET_STATES]
      · simp [syncFireExpected, syncFirePeriod, syncFireDue, hc, hp, Sched.onApp,
          App.emit, h2pca_locked_GET_STATES, esp_timer_stop, esp_timer_start_periodic,
          store_task_period, hobj']

/-- The task loop from index `k` on, in closed form. -/
theorem sync_loop_eq (slot : Nat → Option Nat) (rest : List Nat) :
    ∀ (k : Nat) (s : Sched), s.tasks.drop k = rest →
      (List.range' k rest.length).foldl (fun s i => __main_task_sync_task (slot i) i s) s =
        { loop := { s.loop with app := { s.loop.app with
              trace := s.loop.app.trace
                ++ (syncPassExpected s.loop.app.client_state slot k rest s.heap).1 } },
          heap := (syncPassExpected s.loop.app.client_state slot k rest s.heap).2,
          tasks := s.tasks } := by
  induction rest with
  | nil =>
    intro k s _
    simp [syncPassExpected]
  | cons ptr rest ih =>
    intro k s hdrop
    obtain ⟨hget, hrest⟩ := list_drop_cons _ _ _ _ hdrop
    rw [List.length_cons, List.range'_succ, List.foldl_cons]
    cases hobj : s.heap.get? ptr with
    | none =>
      have hobj' : s.heap[ptr]? = none := by
        rw [← List.get?_eq_getElem?]; exact hobj
      have hskip : __main_task_sync_task (slot k) k s = s := by
        unfold __main_task_sync_task
        rw [hget]
        simp only []
        rw [hobj]
      rw [hskip, ih (k + 1) s hrest]
      simp [syncPassExpected, hobj']
    | some tsk =>
      have hobj' : s.heap[ptr]? = some tsk := by
        rw [← List.get?_eq_getElem?]; exact hobj
      rw [sync_task_eq (slot k) k ptr tsk s hget hobj]
      refine (ih (k + 1) _ ?_).trans ?_
      · exact hrest
      · simp [syncPassExpected, hobj', List.append_assoc]

/-- C13: the sync fire path of one main-loop tick. Whenever the part of the tick before
the task loop ends without abort, in state `l`, the tick ends without abort and what it
does after that part is: for every entry of the pool, in pool order, what
`syncPassExpected` says (the sync callback with `ID`, the register, `user_data` and the
stored period, exactly when the descriptor has a sync callback and all bits of
`req_bitmask | apply_bitmask` are set; then, only when the callback left a different
period, `esp_timer_stop`, the store of the new period, `esp_timer_start_periodic` with
the new period, in this order), then the finish-step callback and the delay. The period
fields end as `syncPassExpected` says and nothing else changes. The second part spells
out one inspection on the embedded loop body. -/
theorem C13_sync_fire (K : Consts) (env : TickEnv) (s : Sched) (l : MainLoop)
    (hconn : __main_task_connection_part K env s.loop = .ok l) :
    __main_task_tick K env s = .ok
        { loop := { l with app := { l.app with
              trace := l.app.trace
                ++ (syncPassExpected l.app.client_state env.slot 0 s.tasks s.heap).1
                ++ (if l.app.cfg.on_finish_step then [Ev.cb_on_finish_step] else [])
                ++ [Ev.vTaskDelay l.app.cfg.main_loop_period] } },
          heap := (syncPassExpected l.app.client_state env.slot 0 s.tasks s.heap).2,
          tasks := s.tasks }
    ∧ ∀ (slot : Option Nat) (i ptr : Nat) (tsk : h2pca_task) (s0 : Sched),
        s0.tasks.get? i = some ptr → s0.heap.get? ptr = some tsk → tsk.on_sync = true →
        (__main_task_sync_task slot i s0).loop.app.trace = s0.loop.app.trace ++
            (if h2pca_locked_CHK_STATE (tsk.req_bitmask ||| tsk.apply_bitmask) s0.loop.app then
              Ev.cb_on_sync tsk.ID (h2pca_locked_GET_STATES s0.loop.app) tsk.user_data
                  tsk.period ::
                (if slot.getD tsk.period = tsk.period then []
                 else [Ev.esp_timer_stop (TimerHandle.user i),
                       Ev.store_task_period ptr (slot.getD tsk.period),
                       Ev.esp_timer_start_periodic (TimerHandle.user i)
                         (slot.getD tsk.period)])
             else [])
        ∧ (__main_task_sync_task slot i s0).heap =
            (if h2pca_locked_CHK_STATE (tsk.req_bitmask ||| tsk.apply_bitmask) s0.loop.app
                = true ∧ slot.getD tsk.period ≠ tsk.period then
              s0.heap.set ptr { tsk with period := slot.getD tsk.period }
             else s0.heap)
        ∧ (__main_task_sync_task slot i s0).tasks = s0.tasks
        ∧ (__main_task_sync_task slot i s0).loop =
            { s0.loop with app := { s0.loop.app with
                trace := (__main_task_sync_task slot i s0).loop.app.trace } } := by
  constructor
  · unfold __main_task_tick
    rw [hconn]
    simp only []
    unfold __main_task_sync_tasks
    rw [List.range_eq_range']
    have h := sync_loop_eq env.slot s.tasks 0 { s with loop := l } rfl
    simp only [] at h
    rw [h]
    cases hf : l.app.cfg.on_finish_step <;>
      simp [Sched.onApp, EXEC_CB, App.emit, hf, List.append_assoc]
  · intro slot i ptr tsk s0 hget hobj hsync
    obtain ⟨TAG, ID, period, req, apply, on_time, on_sync, ud⟩ := tsk
    have hsame := list_set_same _ _ _ hobj
    have hchk : h2pca_locked_CHK_STATE (req ||| apply) s0.loop.app
        = allBitsSet s0.loop.app.client_state (req ||| apply) := rfl
    simp only at hsync
    subst hsync
    rw [sync_task_eq slot i ptr _ s0 hget hobj]
    simp only [hchk]
    cases hc : allBitsSet s0.loop.app.client_state (req ||| apply)
    · simp [syncFireExpected, syncFirePeriod, syncFireDue, hc, hsame]
    · by_cases hp : slot.getD period = period
      · simp [syncFireExpected, syncFirePeriod, syncFireDue, hc, hp, hsame,
          h2pca_locked_GET_STATES]
      · simp [syncFireExpected, syncFirePeriod, syncFireDue, hc, hp,
          h2pca_locked_GET_STATES]

/-- Witness of C13: a tick on the all-zero register (link-down branch, no abort) with a
pool whose two entries point to the same descriptor (sync callback, stored period 5,
empty masks); the callback leaves 7 at the first inspection and nothing at the second.
The second inspection is called with the period the first one stored. -/
theorem C13_sync_fire_witness :
    __main_task_connection_part sampleConsts
        { slot := fun i => if i = 0 then some 7 else none }
        ({ heap := [{ on_sync := true, period := 5, ID := 9 }], tasks := [0, 0] } : Sched).loop
      = .ok { connectDelay := -200, wifiDisconnectedTime := 200 }
    ∧ __main_task_tick sampleConsts { slot := fun i => if i = 0 then some 7 else none }
        { heap := [{ on_sync := true, period := 5, ID := 9 }], tasks := [0, 0] }
      = .ok { loop := { connectDelay := -200, wifiDisconnectedTime := 200,
                        app := { trace := [Ev.cb_on_sync 9 0 0 5,
                                 Ev.esp_timer_stop (TimerHandle.user 0),
                                 Ev.store_task_period 0 7,
                                 Ev.esp_timer_start_periodic (TimerHandle.user 0) 7,
                                 Ev.cb_on_sync 9 0 0 7,
                                 Ev.vTaskDelay 200] } },
              heap := [{ on_sync := true, period := 7, ID := 9 }],
              tasks := [0, 0] } :=
  ⟨rfl, (C13_sync_fire sampleConsts { slot := fun i => if i = 0 then some 7 else none }
    { heap := [{ on_sync := true, period := 5, ID := 9 }], tasks := [0, 0] }
    { connectDelay := -200, wifiDisconnectedTime := 200 } rfl).1⟩

/-- Growing a block by one slot and writing the new slot appends the written value. -/
theorem reallocSlots_set (l : List (Option h2pca_task)) (x : Option h2pca_task) :
    (reallocSlots l (l.length + 1)).set l.length x = l ++ [x] := by
  unfold reallocSlots
  induction l with
  | nil => rfl
  | cons y l ih =>
    simp only [List.length_cons, Nat.add_sub_cancel_left, List.cons_append, List.take_succ_cons,
      List.set_cons_succ] at ih ⊢
    rw [ih]

/-- C15: on a pool that holds `t1..tn` (`cnt = n`; the block holds exactly these, or is
NULL when `n = 0`), `h2pca_task_pool_add_task` with a non-NULL task and a successful
allocation returns `ESP_OK` and leaves the pool holding `t1..tn, t` with `cnt = n + 1`;
with a NULL pool or a NULL task it returns `ESP_ERR_INVALID_ARG` and leaves the pool
as it was. -/
theorem C15_pool_add_task (pool : h2pca_tasks) (ts : List h2pca_task) (t : h2pca_task)
    (alloc : Bool)
    (hcnt : pool.cnt = (ts.length : Int))
    (hslots : pool.tasks = some (ts.map some) ∨ (ts = [] ∧ pool.tasks = none))
    (hfit : ts.length + 1 < 2147483648) :
    h2pca_task_pool_add_task true (some pool) (some t)
        = (ESP_OK, some { cnt := ((ts.length + 1 : Nat) : Int),
                          tasks := some ((ts ++ [t]).map some) })
    ∧ h2pca_task_pool_add_task alloc (some pool) none = (ESP_ERR_INVALID_ARG, some pool)
    ∧ h2pca_task_pool_add_task alloc none (some t) = (ESP_ERR_INVALID_ARG, none)
    ∧ h2pca_task_pool_add_task alloc none none = (ESP_ERR_INVALID_ARG, none) := by
  refine ⟨?_, rfl, rfl, rfl⟩
  have hw : wrapInt32 (pool.cnt + 1) = ((ts.length + 1 : Nat) : Int) := by
    rw [hcnt]; unfold wrapInt32; omega
  have hn1 : (pool.cnt + 1).toNat = ts.length + 1 := by rw [hcnt]; omega
  have hn : pool.cnt.toNat = ts.length := by rw [hcnt]; omega
  rcases hslots with h | ⟨hnil, h⟩
  · have hset := reallocSlots_set (ts.map some) (some t)
    rw [List.length_map] at hset
    simp only [h2pca_task_pool_add_task, h, hw, hn1, hn, hset, if_true, List.map_append,
      List.map_cons, List.map_nil]
  · subst hnil
    have hn0 : pool.cnt.toNat = 0 := hn
    simp only [h2pca_task_pool_add_task, h, hw, hn0, if_true]
    rfl

/-- Witness of C15: adding a task with `ID = 2` to a pool that holds one task with
`ID = 1`. -/
theorem C15_pool_add_task_witness :
    h2pca_task_pool_add_task true (some { cnt := 1, tasks := some [some { ID := 1 }] })
        (some { ID := 2 })
      = (ESP_OK, some { cnt := 2, tasks := some [some { ID := 1 }, some { ID := 2 }] }) :=
  (C15_pool_add_task { cnt := 1, tasks := some [some { ID := 1 }] } [{ ID := 1 }] { ID := 2 }
    true rfl (Or.inl rfl) (by decide)).1

/-! ## Helper lemmas on the trace of outgoing calls -/

theorem count_emit (e e' : Ev) (a : App) :
    List.count e (a.emit e').trace = List.count e a.trace + (if e' = e then 1 else 0) := by
  simp [App.emit, List.count_append, List.count_cons]

theorem count_emit_ne (e e' : Ev) (a : App) (h : e ≠ e') :
    List.count e (a.emit e').trace = List.count e a.trace := by
  rw [count_emit, if_neg (Ne.symm h), Nat.add_zero]

theorem count_EXEC_CB_ne (e e' : Ev) (b : Bool) (a : App) (h : e ≠ e') :
    List.count e (EXEC_CB b e' a).trace = List.count e a.trace := by
  unfold EXEC_CB
  split
  · exact count_emit_ne e e' a h
  · rfl

theorem count_disconnect_host_ne (e : Ev) (a : App)
    (h1 : e ≠ Ev.h2pc_disconnect_http2) (h2 : e ≠ Ev.h2pc_reset_buffers)
    (h3 : e ≠ Ev.cb_on_disconnect) :
    List.count e (__disconnect_host a).trace = List.count e a.trace := by
  unfold __disconnect_host
  simp only []
  rw [count_EXEC_CB_ne _ _ _ _ h3]
  show List.count e (if h2pca_locked_CHK_STATE HOST_CONNECTED_BIT a = true
      then a.emit Ev.h2pc_disconnect_http2 else a.emit Ev.h2pc_reset_buffers).trace = _
  split
  · exact count_emit_ne _ _ _ h1
  · exact count_emit_ne _ _ _ h2

theorem count_check_errors_ne (e : Ev) (K : Consts) (c : Bool) (n err : Int) (a : App)
    (h1 : e ≠ Ev.h2pc_disconnect_http2) (h2 : e ≠ Ev.h2pc_reset_buffers)
    (h3 : e ≠ Ev.cb_on_disconnect) (h4 : e ≠ Ev.cb_on_error err) :
    List.count e (__check_h2pc_errors K c n err a).trace = List.count e a.trace := by
  have hcb : List.count e (if (err != K.REST_RESULT_OK) = true
      then EXEC_CB a.cfg.on_error (Ev.cb_on_error err) a else a).trace = List.count e a.trace := by
    split
    · exact count_EXEC_CB_ne _ _ _ _ h4
    · rfl
  unfold __check_h2pc_errors
  simp only []
  split
  · split
    · split
      · split
        · exact hcb
        · rw [count_disconnect_host_ne e _ h1 h2 h3]; exact hcb
      · rfl
    · exact count_disconnect_host_ne e _ h1 h2 h3
  · rfl

theorem count_consume_protocol_error_ne (e : Ev) (K : Consts) (err : Int) (a : App)
    (h4 : e ≠ Ev.cb_on_error err) :
    List.count e (__consume_protocol_error K err a).trace = List.count e a.trace := by
  have hcb : List.count e (if (err != K.REST_RESULT_OK) = true
      then EXEC_CB a.cfg.on_error (Ev.cb_on_error err) a else a).trace = List.count e a.trace := by
    split
    · exact count_EXEC_CB_ne _ _ _ _ h4
    · rfl
  unfold __consume_protocol_error
  simp only []
  split
  · exact hcb
  · exact hcb

/-- The authorize step calls `h2pc_req_authorize_sync` once and never
`h2pc_req_get_msgs_sync`. -/
theorem count_send_authorize (K : Consts) (res err : Int) (dev : String) (a : App) :
    List.count Ev.h2pc_req_authorize_sync (__send_authorize K res err dev a).trace
        = List.count Ev.h2pc_req_authorize_sync a.trace + 1
    ∧ List.count Ev.h2pc_req_get_msgs_sync (__send_authorize K res err dev a).trace
        = List.count Ev.h2pc_req_get_msgs_sync a.trace := by
  unfold __send_authorize
  simp only []
  constructor
  · split
    · show List.count _ (a.emit Ev.h2pc_req_authorize_sync).trace = _
      rw [count_emit]; rfl
    · split
      · rw [count_consume_protocol_error_ne _ _ _ _ (by simp), count_emit]; rfl
      · rw [count_disconnect_host_ne _ _ (by simp) (by simp) (by simp), count_emit]; rfl
  · split
    · show List.count _ (a.emit Ev.h2pc_req_authorize_sync).trace = _
      rw [count_emit]; rfl
    · split
      · rw [count_consume_protocol_error_ne _ _ _ _ (by simp), count_emit]; rfl
      · rw [count_disconnect_host_ne _ _ (by simp) (by simp) (by simp), count_emit]; rfl

/-- The authorization step of a tick calls `h2pc_req_authorize_sync` once when
need-authorize is set, and never `h2pc_req_get_msgs_sync`. -/
theorem count_auth_step (K : Consts) (env : TickEnv) (a : App) :
    List.count Ev.h2pc_req_authorize_sync (__main_task_auth_step K env a).trace
        = List.count Ev.h2pc_req_authorize_sync a.trace
          + (if h2pca_locked_CHK_STATE MODE_AUTH a then 1 else 0)
    ∧ List.count Ev.h2pc_req_get_msgs_sync (__main_task_auth_step K env a).trace
        = List.count Ev.h2pc_req_get_msgs_sync a.trace := by
  unfold __main_task_auth_step
  split
  · simp only []
    rw [count_check_errors_ne _ _ _ _ _ _ (by simp) (by simp) (by simp) (by simp),
      count_check_errors_ne _ _ _ _ _ _ (by simp) (by simp) (by simp) (by simp)]
    exact count_send_authorize K _ _ _ a
  · exact ⟨rfl, rfl⟩

/-- The receive step of a tick calls `h2pc_req_get_msgs_sync` once when need-receive is
set, and never `h2pc_req_authorize_sync`. -/
theorem count_recv_step (K : Consts) (env : TickEnv) (a : App) :
    List.count Ev.h2pc_req_authorize_sync (__main_task_recv_step K env a).trace
        = List.count Ev.h2pc_req_authorize_sync a.trace
    ∧ List.count Ev.h2pc_req_get_msgs_sync (__main_task_recv_step K env a).trace
        = List.count Ev.h2pc_req_get_msgs_sync a.trace
          + (if h2pca_locked_CHK_STATE MODE_RECIEVE_MSG a then 1 else 0) := by
  have hrecv : ∀ (e : Ev) (b : App), List.count e (__recieve_msgs env.recvRes b).trace
      = List.count e (b.emit Ev.h2pc_req_get_msgs_sync).trace := by
    intro e b
    unfold __recieve_msgs
    simp only []
    split <;> rfl
  unfold __main_task_recv_step
  split
  · simp only [esp_timer_stop, esp_timer_start_periodic]
    constructor
    · rw [count_emit_ne _ _ _ (by simp),
        count_check_errors_ne _ _ _ _ _ _ (by simp) (by simp) (by simp) (by simp), hrecv,
        count_emit_ne _ _ _ (by simp), count_emit_ne _ _ _ (by simp)]
    · rw [count_emit_ne _ _ _ (by simp),
        count_check_errors_ne _ _ _ _ _ _ (by simp) (by simp) (by simp) (by simp), hrecv,
        count_emit, count_emit_ne _ _ _ (by simp)]
      rfl
  · exact ⟨rfl, rfl⟩

/-- Neither the hand-over of buffered messages nor the send step calls
`h2pc_req_authorize_sync` or `h2pc_req_get_msgs_sync`. -/
theorem count_after_recv (K : Consts) (env : TickEnv) (a : App) (e : Ev)
    (he : e = Ev.h2pc_req_authorize_sync ∨ e = Ev.h2pc_req_get_msgs_sync) :
    List.count e (__main_task_send_step K env (__main_task_proceed_inmsgs a)).trace
        = List.count e a.trace := by
  have hsend : ∀ (b : App), List.count e (__send_msgs env.sendRes b).trace
      = List.count e (b.emit Ev.h2pc_req_send_msgs_sync).trace := by
    intro b
    unfold __send_msgs
    simp only []
    split <;> rfl
  have hproc : List.count e (__main_task_proceed_inmsgs a).trace = List.count e a.trace := by
    unfold __main_task_proceed_inmsgs
    simp only []
    rw [count_EXEC_CB_ne _ _ _ _ (by rcases he with h | h <;> simp [h]),
      count_emit_ne _ _ _ (by rcases he with h | h <;> simp [h]),
      count_EXEC_CB_ne _ _ _ _ (by rcases he with h | h <;> simp [h])]
  unfold __main_task_send_step
  split
  · simp only [esp_timer_stop, esp_timer_start_periodic]
    rw [count_emit_ne _ _ _ (by rcases he with h | h <;> simp [h]),
      count_check_errors_ne _ _ _ _ _ _ (by rcases he with h | h <;> simp [h])
        (by rcases he with h | h <;> simp [h]) (by rcases he with h | h <;> simp [h])
        (by rcases he with h | h <;> simp [h]), hsend,
      count_emit_ne _ _ _ (by rcases he with h | h <;> simp [h]),
      count_emit_ne _ _ _ (by rcases he with h | h <;> simp [h])]
    exact hproc
  · exact hproc

/-! ## Claims on the main loop -/

/-- C14 (evaluation at the failing input): from the all-zero register the link-up
notification (`SYSTEM_EVENT_STA_GOT_IP`) returns with the register still 0, the link-up
bit not set; the next tick, with collaborators that would all succeed, takes the link-down
branch: it does not call `h2pc_connect_to_http2` and the register stays 0. -/
theorem C14_scenario_stops_at_link_up :
    ∃ a' s', event_handler SystemEvent.SYSTEM_EVENT_STA_GOT_IP 0 {} = .ok a'
      ∧ a'.client_state = 0
      ∧ h2pca_locked_CHK_STATE WIFI_CONNECTED_BIT a' = false
      ∧ __main_task_tick sampleConsts {} { loop := { app := a' } } = .ok s'
      ∧ s'.loop.app.client_state = 0
      ∧ List.count Ev.h2pc_connect_to_http2 s'.loop.app.trace = 0 :=
  ⟨_, _, rfl, by decide, by decide, rfl, by decide, by decide⟩

/-- C16 (counterexample): a tick from register `0x33` (link-up, host-connected,
need-authorize, need-receive) in which authorization fails with `H2PC_ERR_PROTOCOL`
(last error `REST_RESULT_OK`, no protocol error counted) runs the authorization step and
the receive step both. -/
theorem C16_counterexample_auth_then_receive :
    h2pca_locked_CHK_STATE (WIFI_CONNECTED_BIT ||| HOST_CONNECTED_BIT)
        ({ client_state := 0x33 } : App) = true
    ∧ ∃ s', __main_task_tick sampleConsts
          { authRes := sampleConsts.H2PC_ERR_PROTOCOL, authErr := sampleConsts.REST_RESULT_OK }
          { loop := { app := { client_state := 0x33 } } } = .ok s'
        ∧ List.count Ev.h2pc_req_authorize_sync s'.loop.app.trace = 1
        ∧ List.count Ev.h2pc_req_get_msgs_sync s'.loop.app.trace = 1 :=
  ⟨by decide, _, rfl, by decide, by decide⟩

/-- C16 (amended): in the host-connected branch of a tick the authorization step and the
receive step are consecutive, independently guarded steps. `h2pc_req_authorize_sync` is
called once exactly when need-authorize is set at the start of the branch, and
`h2pc_req_get_msgs_sync` is called once exactly when need-receive is set in the register
left by the authorization step (with its error check), whether or not that step ran. -/
theorem C16_receive_follows_auth_step (K : Consts) (env : TickEnv) (a : App) :
    List.count Ev.h2pc_req_authorize_sync (__main_task_host_branch K env a).trace
        = List.count Ev.h2pc_req_authorize_sync a.trace
          + (if h2pca_locked_CHK_STATE MODE_AUTH a then 1 else 0)
    ∧ List.count Ev.h2pc_req_get_msgs_sync (__main_task_host_branch K env a).trace
        = List.count Ev.h2pc_req_get_msgs_sync a.trace
          + (if h2pca_locked_CHK_STATE MODE_RECIEVE_MSG (__main_task_auth_step K env a)
             then 1 else 0) := by
  unfold __main_task_host_branch
  simp only []
  constructor
  · rw [count_after_recv K env _ _ (Or.inl rfl), (count_recv_step K env _).1,
      (count_auth_step K env a).1]
  · rw [count_after_recv K env _ _ (Or.inr rfl), (count_recv_step K env _).2,
      (count_auth_step K env a).2]

/-! ## The host-connected and authorized bits along the transitions -/

theorem clearBits_keeps_clear (s m : Nat) (h : s &&& 6 = 0) :
    xEventGroupClearBits s m &&& 6 = 0 := by
  unfold xEventGroupClearBits
  rw [Nat.and_assoc, Nat.and_comm (0xFFFFFFFF ^^^ m) 6, ← Nat.and_assoc, h, Nat.zero_and]

theorem setBits_keeps_clear (s m : Nat) (h : s &&& 6 = 0) (hm : m &&& 6 = 0) :
    xEventGroupSetBits s m &&& 6 = 0 := by
  unfold xEventGroupSetBits
  rw [Nat.and_distrib_right, h, hm]
  rfl

theorem inv_SET_STATE (m : Nat) (a : App) (h : a.client_state &&& 6 = 0) :
    (h2pca_locked_SET_STATE m a).client_state &&& 6 = 0 :=
  clearBits_keeps_clear _ _ h

theorem inv_CLR_STATE (m : Nat) (a : App) (hm : m &&& 6 = 0) (h : a.client_state &&& 6 = 0) :
    (h2pca_locked_CLR_STATE m a).client_state &&& 6 = 0 :=
  setBits_keeps_clear _ _ h hm

theorem inv_CLR_ALL_STATES (a : App) (h : a.client_state &&& 6 = 0) :
    (h2pca_locked_CLR_ALL_STATES a).client_state &&& 6 = 0 :=
  clearBits_keeps_clear _ _ h

theorem inv_EXEC_CB (b : Bool) (e : Ev) (a : App) (h : a.client_state &&& 6 = 0) :
    (EXEC_CB b e a).client_state &&& 6 = 0 := by
  unfold EXEC_CB
  split
  · exact h
  · exact h

/-- A mask that contains a bit of `0x06` is not satisfied while both bits of `0x06`
(host-connected, authorized) are clear. -/
theorem inv_chk_false (m k : Nat) (a : App) (h : a.client_state &&& 6 = 0)
    (hk : k ≠ 0) (hmk : m &&& k = k) (h6 : 6 &&& k = k) :
    h2pca_locked_CHK_STATE m a = false := by
  rw [chk_eq]
  have hsk : a.client_state &&& k = 0 := by
    rw [← h6, ← Nat.and_assoc, h, Nat.zero_and]
  cases hc : (a.client_state &&& m == m)
  · rfl
  · exfalso
    have hm : a.client_state &&& m = m := by simpa using hc
    apply hk
    calc k = m &&& k := hmk.symm
      _ = (a.client_state &&& m) &&& k := by rw [hm]
      _ = a.client_state &&& k := by rw [Nat.and_assoc, hmk]
      _ = 0 := hsk

theorem inv_disconnect_host (a : App) :
    (__disconnect_host a).client_state &&& 6 = 0 := by
  rw [disconnect_host_eq]
  show a.client_state &&& 0xFF000001 &&& 6 = 0
  have hc : (0xFF000001 &&& 6 : Nat) = 0 := by decide
  rw [Nat.and_assoc, hc, Nat.and_zero]

theorem inv_consume_protocol_error (K : Consts) (err : Int) (a : App)
    (h : a.client_state &&& 6 = 0) :
    (__consume_protocol_error K err a).client_state &&& 6 = 0 := by
  have hcb : (if (err != K.REST_RESULT_OK) = true
      then EXEC_CB a.cfg.on_error (Ev.cb_on_error err) a else a).client_state &&& 6 = 0 := by
    split
    · exact inv_EXEC_CB _ _ _ h
    · exact h
  unfold __consume_protocol_error
  simp only []
  split
  · exact inv_SET_STATE _ _ (inv_CLR_ALL_STATES _ hcb)
  · exact hcb

theorem inv_connect (c : Bool) (a : App) :
    (__connect_to_http2 c a).client_state &&& 6 = 0 := by
  unfold __connect_to_http2
  simp only []
  split
  · exact inv_SET_STATE _ _ (inv_disconnect_host a)
  · exact inv_disconnect_host a

theorem inv_send_authorize (K : Consts) (res err : Int) (dev : String) (a : App)
    (h : a.client_state &&& 6 = 0) :
    (__send_authorize K res err dev a).client_state &&& 6 = 0 := by
  unfold __send_authorize
  simp only []
  split
  · exact inv_SET_STATE _ _ (inv_CLR_STATE MODE_AUTH _ (by decide) h)
  · split
    · exact inv_consume_protocol_error K err _ h
    · exact inv_disconnect_host _

theorem inv_check_errors (K : Consts) (c : Bool) (n err : Int) (a : App)
    (h : a.client_state &&& 6 = 0) :
    (__check_h2pc_errors K c n err a).client_state &&& 6 = 0 := by
  have hchk : h2pca_locked_CHK_STATE (WIFI_CONNECTED_BIT ||| HOST_CONNECTED_BIT) a = false :=
    inv_chk_false _ 2 a h (by decide) (by decide) (by decide)
  unfold __check_h2pc_errors
  rw [hchk]
  exact h

theorem inv_event_handler (ev : SystemEvent) (wifiRes : Int) (a a' : App)
    (h : a.client_state &&& 6 = 0) (hev : event_handler ev wifiRes a = .ok a') :
    a'.client_state &&& 6 = 0 := by
  unfold event_handler at hev
  cases ev with
  | SYSTEM_EVENT_STA_START =>
    simp only [] at hev
    split at hev
    · cases hev
    · cases hev
      exact inv_EXEC_CB _ _ _ h
  | SYSTEM_EVENT_STA_GOT_IP =>
    simp only [] at hev
    cases hev
    exact inv_EXEC_CB _ _ _ (inv_SET_STATE _ _ (inv_SET_STATE _ _ h))
  | SYSTEM_EVENT_STA_DISCONNECTED =>
    simp only [] at hev
    cases hev
    apply inv_CLR_STATE WIFI_CONNECTED_BIT _ (by decide)
    apply inv_CLR_ALL_STATES
    split
    · exact inv_EXEC_CB _ _ _ h
    · exact inv_EXEC_CB _ _ _ h
  | other =>
    cases hev
    exact h

/-- Along the transitions from an all-zero register the host-connected and the authorized
bit of the model's register stay clear (this is the register the routes read as long as
no copy has overrun `device_name`): the only route that could set one of them,
`h2pca_locked_CLR_STATE (AUTHORIZED_BIT)` in `__check_h2pc_errors`, is guarded by the
host-connected bit. -/
theorem reachable_host_authorized_clear (K : Consts) (a : App) (h : Reachable K a) :
    a.client_state &&& 6 = 0 := by
  induction h with
  | init a h0 => rw [h0]; rfl
  | notify a a' ev wifiRes _ hev ih => exact inv_event_handler ev wifiRes a a' ih hev
  | connect a c _ _ => exact inv_connect c a
  | authorize a res err dev _ ih => exact inv_send_authorize K res err dev a ih
  | check_errors a c n err _ ih => exact inv_check_errors K c n err a ih
  | recieve_msgs a res _ ih =>
    unfold __recieve_msgs
    simp only []
    split
    · exact inv_CLR_STATE MODE_RECIEVE_MSG _ (by decide) ih
    · exact ih
  | send_msgs a res _ ih =>
    unfold __send_msgs
    simp only []
    split
    · exact inv_CLR_STATE MODE_SEND_MSG _ (by decide) ih
    · exact ih
  | disconnect a _ _ => exact inv_disconnect_host a
  | msgs_get_cb a w _ ih =>
    unfold __msgs_get_cb
    split
    · split
      · exact inv_SET_STATE _ _ ih
      · exact ih
    · exact ih
  | msgs_send_cb a w _ ih =>
    unfold __msgs_send_cb
    split
    · split
      · exact inv_SET_STATE _ _ ih
      · exact ih
    · exact ih

end Wch2pcApp
